import Mathlib

/-!
# Mr Chef restaurant app — verification of the order / stream / balance routes

Shallow embedding of the route handlers of the Mr Chef restaurant management
application (`src/app/api/orders/route.ts`, `src/app/api/orders/stream/route.ts`,
`src/app/api/balance/route.ts`) together with proofs of the specified properties.

Conventions of the embedding:
* SQLite rows are Lean structures; integer columns are `Int`, text columns
  `String`, nullable columns `Option _`.
* Server-local time is a `Nat` counting milliseconds since the local epoch, so
  the JavaScript `setHours(0,0,0,0)` / `setHours(23,59,59,999)` day boundaries
  become plain division/multiplication by `msPerDay`.
* A handler is a pure function from the store (plus the request body, the
  current time, and the row ids the database would assign) to a result
  together with the store after the request.
* JavaScript truthiness on the fields the handlers test with `!x` is modelled
  explicitly (`none`, `0` and `""` are falsy).
-/

namespace MrChef

/-- Milliseconds in one calendar day. -/
def msPerDay : Nat := 86400000

/-- `getStartOfDay` of `src/app/api/orders/route.ts`: the JS
`setHours(0, 0, 0, 0)` on a local-time instant, i.e. local midnight of the
same day. -/
def getStartOfDay (t : Nat) : Nat := t / msPerDay * msPerDay

/-- `getEndOfDay` of `src/app/api/orders/route.ts`: the JS
`setHours(23, 59, 59, 999)`, i.e. the last millisecond of the same local day. -/
def getEndOfDay (t : Nat) : Nat := getStartOfDay t + (msPerDay - 1)

/-- JavaScript `String.prototype.padStart(n, c)`. -/
def padStart (s : String) (n : Nat) (c : Char) : String :=
  if s.length ≥ n then s
  else String.mk (List.replicate (n - s.length) c) ++ s

/-- `generateOrderNumber` of `src/app/api/orders/route.ts`:
`String(count + 1).padStart(3, '0')`. -/
def generateOrderNumber (count : Nat) : String :=
  padStart (toString (count + 1)) 3 '0'

/-- A row of the `menu_items` table.  Only the columns the verified routes
read are carried (`category`, `available`, `sortOrder`, `createdAt` are never
consulted by the order / stream handlers). -/
structure MenuItem where
  id : Int
  name : String
  price : Int
  deriving Repr, DecidableEq

/-- A row of the `orders` table. -/
structure OrderRow where
  id : Int
  orderNumber : String
  tableNumber : Option String
  status : String
  total : Int
  createdAt : Nat
  updatedAt : Nat
  deriving Repr, DecidableEq

/-- A row of the `order_items` table. -/
structure OrderItemRow where
  id : Int
  orderId : Int
  menuItemId : Int
  quantity : Int
  notes : Option String
  priceAtTime : Int
  deriving Repr, DecidableEq

/-- The slice of the SQLite database touched by the order routes. -/
structure Store where
  menuItems : List MenuItem
  orders : List OrderRow
  orderItems : List OrderItemRow
  deriving Repr, DecidableEq

/-- One entry of the `items` array of a create-order request
(`OrderItemRequest` in the source).  There is no client-supplied price field:
the interface only carries `menuItemId`, `quantity` and optional `notes`. -/
structure OrderItemRequest where
  menuItemId : Int
  quantity : Int
  notes : Option String
  deriving Repr, DecidableEq

/-- The create-order request body (`CreateOrderRequest` in the source).
`items = none` models a body whose `items` field is missing or not an array
(the handler treats both identically via `!body.items || !Array.isArray`). -/
structure CreateOrderRequest where
  items : Option (List OrderItemRequest)
  tableNumber : Option String
  deriving Repr, DecidableEq

/-- Outcome of the create-order handler: a 400 JSON error or the created
response `\x7borderId, orderNumber\x7d`. -/
inductive PostResult where
  | badRequest (msg : String)
  | created (orderId : Int) (orderNumber : String)
  deriving Repr, DecidableEq

/-- Whether a `PostResult` is the 400 branch. -/
def PostResult.isBadRequest : PostResult → Bool
  | .badRequest _ => true
  | .created _ _ => false

/-- JavaScript `x || null` on an optional string: `undefined`/`null` and the
empty string collapse to `null`. -/
def strOrNull : Option String → Option String
  | none => none
  | some s => if s = "" then none else some s

/-- The `total` accumulation loop of the create-order handler: walks the
submitted items in order, looks each price up in the price map, and aborts
with the offending `menuItemId` if a price is missing (the source's
`Menu item X not found` branch). -/
def computeTotal (priceOf : Int → Option Int) : List OrderItemRequest → Except Int Int
  | [] => .ok 0
  | it :: rest =>
    match priceOf it.menuItemId with
    | none => .error it.menuItemId
    | some p =>
      match computeTotal priceOf rest with
      | .error e => .error e
      | .ok t => .ok (p * it.quantity + t)

/-- The JS `Map` built from `menuItemsData`: on duplicate keys the last
insertion wins, so lookup searches the reversed list. -/
def priceMapGet (menuItemsData : List MenuItem) (id : Int) : Option Int :=
  (menuItemsData.reverse.find? (fun m => m.id == id)).map (fun m => m.price)

/-- The `todaysOrders` query of the create-order handler: rows whose
`createdAt` satisfies `gte(startOfDay) ∧ lt(endOfDay)`. -/
def todaysOrders (store : Store) (now : Nat) : List OrderRow :=
  store.orders.filter
    (fun o => decide (getStartOfDay now ≤ o.createdAt) &&
              decide (o.createdAt < getEndOfDay now))

/-- The order-item row inserted for the `idx`-th entry of the submitted items
(ids are assigned sequentially by SQLite autoincrement, modelled as
`newItemIdBase + idx`).  `priceAtTime` copies the price-map entry, which the
source asserts non-null with `!`. -/
def mkItemRow (newItemIdBase orderId : Int) (priceOf : Int → Option Int)
    (idx : Nat) (it : OrderItemRequest) : OrderItemRow :=
  { id := newItemIdBase + (idx : Int)
    orderId := orderId
    menuItemId := it.menuItemId
    quantity := it.quantity
    notes := strOrNull it.notes
    priceAtTime := (priceOf it.menuItemId).getD 0 }

/-- `POST /api/orders` (`POST` of `src/app/api/orders/route.ts`).
`now` is the server clock at submission, `newOrderId` the id SQLite assigns
to the order row and `newItemIdBase` the first id assigned to the line-item
rows. -/
def ordersPOST (store : Store) (body : CreateOrderRequest) (now : Nat)
    (newOrderId newItemIdBase : Int) : PostResult × Store :=
  match body.items with
  | none => (.badRequest "Order must contain at least one item", store)
  | some items =>
    if items.length = 0 then
      (.badRequest "Order must contain at least one item", store)
    else
      let menuItemIds := items.map (fun it => it.menuItemId)
      let menuItemsData := store.menuItems.filter (fun m => menuItemIds.contains m.id)
      if menuItemsData.length ≠ menuItemIds.length then
        (.badRequest "One or more menu items not found", store)
      else
        match computeTotal (priceMapGet menuItemsData) items with
        | .error missingId =>
          (.badRequest ("Menu item " ++ toString missingId ++ " not found"), store)
        | .ok total =>
          let orderNumber := generateOrderNumber (todaysOrders store now).length
          let order : OrderRow :=
            { id := newOrderId
              orderNumber := orderNumber
              tableNumber := strOrNull body.tableNumber
              status := "pending"
              total := total
              createdAt := now
              updatedAt := now }
          let newRows := items.enum.map
            (fun p => mkItemRow newItemIdBase newOrderId (priceMapGet menuItemsData) p.1 p.2)
          (.created newOrderId orderNumber,
            { store with
                orders := store.orders ++ [order]
                orderItems := store.orderItems ++ newRows })

/-- The current stored price of menu item `id`: the price of the (unique,
by primary key) `menu_items` row with that id. -/
def currentPrice (store : Store) (id : Int) : Option Int :=
  (store.menuItems.find? (fun m => m.id == id)).map (fun m => m.price)

/-- `Σ quantity_i × currentPrice_i` over a submitted items list, priced from
the store. -/
def orderTotal (store : Store) (items : List OrderItemRequest) : Int :=
  (items.map (fun it => (currentPrice store it.menuItemId).getD 0 * it.quantity)).sum

/-- The update-status request body (`UpdateOrderRequest` in the source).
`none` models a missing field; the handler tests both fields with JS `!`,
under which the number `0` and the empty string are also falsy. -/
structure UpdateOrderRequest where
  orderId : Option Int
  status : Option String
  deriving Repr, DecidableEq

/-- JS falsiness of `body.orderId` (`!body.orderId`): missing or `0`. -/
def orderIdFalsy : Option Int → Bool
  | none => true
  | some v => v == 0

/-- JS falsiness of `body.status` (`!body.status`): missing or `""`. -/
def statusFalsy : Option String → Bool
  | none => true
  | some s => s == ""

/-- The `validStatuses` array of the PATCH handler. -/
def validStatuses : List String := ["pending", "preparing", "ready", "served"]

/-- Outcome of the update-status handler: 400, 404, or the success response
`\x7borderId, status\x7d`. -/
inductive PatchResult where
  | badRequest (msg : String)
  | notFound (msg : String)
  | ok (orderId : Int) (status : String)
  deriving Repr, DecidableEq

/-- Whether a `PatchResult` is the 400 branch. -/
def PatchResult.is400 : PatchResult → Bool
  | .badRequest _ => true
  | _ => false

/-- Whether a `PatchResult` is the 404 branch. -/
def PatchResult.is404 : PatchResult → Bool
  | .notFound _ => true
  | _ => false

/-- `PATCH /api/orders` (`PATCH` of `src/app/api/orders/route.ts`). `now` is
the server clock, written into `updatedAt` of the matched row. -/
def ordersPATCH (store : Store) (body : UpdateOrderRequest) (now : Nat) :
    PatchResult × Store :=
  if orderIdFalsy body.orderId || statusFalsy body.status then
    (.badRequest "Order ID and status are required", store)
  else
    let status := body.status.getD ""
    if ¬ validStatuses.contains status then
      (.badRequest "Invalid status", store)
    else
      let oid := body.orderId.getD 0
      match store.orders.find? (fun o => o.id == oid) with
      | none => (.notFound "Order not found", store)
      | some _ =>
        let newOrders := store.orders.map
          (fun o => if o.id == oid then { o with status := status, updatedAt := now } else o)
        (.ok oid status, { store with orders := newOrders })

/-! ### The live-update feed (`src/app/api/orders/stream/route.ts`) -/

/-- One `items` entry of the stream snapshot: an `order_items` row inner-joined
with its `menu_items` row to pick up the menu item's name. -/
structure OrderItemView where
  id : Int
  menuItemName : String
  quantity : Int
  notes : Option String
  priceAtTime : Int
  deriving Repr, DecidableEq

/-- One element of the stream snapshot (`OrderWithItems` in the source). -/
structure OrderWithItems where
  id : Int
  orderNumber : String
  tableNumber : Option String
  status : String
  total : Int
  createdAt : Nat
  updatedAt : Nat
  items : List OrderItemView
  deriving Repr, DecidableEq

/-- `fetchTodaysOrders` of the stream route: today's orders, each joined with
its line items and their menu-item names (SQLite inner join: a line item whose
`menuItemId` matches no menu row is dropped). -/
def fetchTodaysOrders (store : Store) (now : Nat) : List OrderWithItems :=
  (todaysOrders store now).map (fun o =>
    { id := o.id
      orderNumber := o.orderNumber
      tableNumber := o.tableNumber
      status := o.status
      total := o.total
      createdAt := o.createdAt
      updatedAt := o.updatedAt
      items := (store.orderItems.filter (fun oi => oi.orderId == o.id)).filterMap
        (fun oi => (store.menuItems.find? (fun m => m.id == oi.menuItemId)).map
          (fun m =>
            { id := oi.id
              menuItemName := m.name
              quantity := oi.quantity
              notes := oi.notes
              priceAtTime := oi.priceAtTime })) })

/-- JSON string literal (the snapshots the stream serializes never contain
characters needing escapes, so plain quoting models `JSON.stringify` on
strings). -/
def jsonStr (s : String) : String := "\"" ++ s ++ "\""

/-- JSON rendering of a nullable string column. -/
def jsonOptStr : Option String → String
  | none => "null"
  | some s => jsonStr s

/-- `JSON.stringify` of one joined line item. -/
def serializeItem (it : OrderItemView) : String :=
  "\x7b\"id\":" ++ toString it.id ++
  ",\"menuItemName\":" ++ jsonStr it.menuItemName ++
  ",\"quantity\":" ++ toString it.quantity ++
  ",\"notes\":" ++ jsonOptStr it.notes ++
  ",\"priceAtTime\":" ++ toString it.priceAtTime ++ "\x7d"

/-- `JSON.stringify` of one snapshot element. -/
def serializeOrder (o : OrderWithItems) : String :=
  "\x7b\"id\":" ++ toString o.id ++
  ",\"orderNumber\":" ++ jsonStr o.orderNumber ++
  ",\"tableNumber\":" ++ jsonOptStr o.tableNumber ++
  ",\"status\":" ++ jsonStr o.status ++
  ",\"total\":" ++ toString o.total ++
  ",\"createdAt\":" ++ toString o.createdAt ++
  ",\"updatedAt\":" ++ toString o.updatedAt ++
  ",\"items\":[" ++ String.intercalate "," (o.items.map serializeItem) ++ "]\x7d"

/-- `JSON.stringify(ordersData)`: the serialized snapshot the stream compares
against the last one sent (`currentDataHash` in the source). -/
def serializeOrders (l : List OrderWithItems) : String :=
  "[" ++ String.intercalate "," (l.map serializeOrder) ++ "]"

/-- `JSON.stringify(\x7b orders: ordersData \x7d)`: the payload of an `orders`
event. -/
def ordersPayload (l : List OrderWithItems) : String :=
  "\x7b\"orders\":" ++ serializeOrders l ++ "\x7d"

/-- One server-sent event, as the kitchen client parses it back out of the
`event: .../data: ...` frame. -/
structure SseEvent where
  eventType : String
  data : String
  deriving Repr, DecidableEq

/-- The per-connection state of the stream handler: the captured variables of
`start(controller)` (`lastDataHash`, `isControllerClosed`) plus whether each
of the two `setInterval` timers is currently scheduled. -/
structure StreamState where
  lastDataHash : String
  isControllerClosed : Bool
  pollTimerActive : Bool
  heartbeatTimerActive : Bool
  deriving Repr, DecidableEq

/-- The result of awaiting `fetchTodaysOrders(getDb())` on one tick: either
the snapshot, or the thrown error's message (`getDb`/the queries can throw). -/
abbrev FetchResult : Type := Except String (List OrderWithItems)

/-- `checkForUpdates` of the stream route, acting on one tick: returns the
state after the tick and the events enqueued during it. -/
def checkForUpdates (s : StreamState) (fetch : FetchResult) :
    StreamState × List SseEvent :=
  if s.isControllerClosed then (s, [])
  else
    match fetch with
    | .ok ordersData =>
      let currentDataHash := serializeOrders ordersData
      if currentDataHash ≠ s.lastDataHash then
        ({ s with lastDataHash := currentDataHash },
         [{ eventType := "orders", data := ordersPayload ordersData }])
      else (s, [])
    | .error _ =>
      (s, [{ eventType := "error", data := "\x7b\"message\":\"Failed to fetch orders\"\x7d" }])

/-- `start(controller)` of the stream route: initialize `lastDataHash = ''`,
run `checkForUpdates` once immediately, then schedule the 2-second poll
interval and the 30-second heartbeat interval.  `fetch1` is the outcome of the
initial snapshot read. -/
def streamConnect (fetch1 : FetchResult) : StreamState × List SseEvent :=
  let s0 : StreamState :=
    { lastDataHash := ""
      isControllerClosed := false
      pollTimerActive := false
      heartbeatTimerActive := false }
  let r := checkForUpdates s0 fetch1
  ({ r.1 with pollTimerActive := true, heartbeatTimerActive := true }, r.2)

/-- The `cleanup` closure defined inside `start`: marks the controller closed
and clears both intervals.  It is *returned* from `start`, not registered
anywhere. -/
def cleanup (s : StreamState) : StreamState :=
  { s with isControllerClosed := true
           pollTimerActive := false
           heartbeatTimerActive := false }

/-- The underlying source's `cancel()` handler.  Its body in the source is
empty (just a comment), so it leaves the connection state untouched. -/
def streamCancel (s : StreamState) : StreamState := s

/-- Client disconnection, per the WHATWG Streams semantics the route runs
under: cancelling the `ReadableStream` invokes the underlying source's
`cancel()` handler; the value `start` returned is only awaited as a promise
and is never invoked as a teardown callback. -/
def onClientDisconnect (s : StreamState) : StreamState := streamCancel s

/-! ### The daily balance route (`src/app/api/balance/route.ts`) -/

/-- A row of the `daily_balance` table (`createdAt` is never read by the
balance handlers and is omitted). -/
structure BalanceRow where
  id : Int
  date : String
  openingBalance : Int
  closingBalance : Option Int
  deriving Repr, DecidableEq

/-- The save-balance request body (`SaveBalanceRequest` in the source).
`date = none` models a missing `date` field; the optional amounts are
`undefined` or a number (the handler's `typeof` checks reject anything
else, which the typed embedding cannot represent). -/
structure SaveBalanceRequest where
  date : Option String
  openingBalance : Option Int
  closingBalance : Option Int
  deriving Repr, DecidableEq

/-- Whether a character is an ASCII digit. -/
def isDigitChar (c : Char) : Bool := decide ('0' ≤ c) && decide (c ≤ '9')

/-- Numeric value of a two-digit string fragment. -/
def twoDigits (a b : Char) : Nat := (a.toNat - 48) * 10 + (b.toNat - 48)

/-- Days in a month, with the Gregorian leap rule (what JS `Date` applies when
it validates an ISO `YYYY-MM-DD` string). -/
def daysInMonth (year month : Nat) : Nat :=
  if month = 2 then
    if year % 4 = 0 && (year % 100 ≠ 0 || year % 400 = 0) then 29 else 28
  else if month = 4 || month = 6 || month = 9 || month = 11 then 30
  else 31

/-- `isValidDate` of `src/app/api/balance/route.ts`: the regex
`^\d\x7b4\x7d-\d\x7b2\x7d-\d\x7b2\x7d$` plus `!isNaN(new Date(s).getTime())`,
which for an ISO date string means the month is 01–12 and the day fits the
month. -/
def isValidDate (s : String) : Bool :=
  match s.toList with
  | [y1, y2, y3, y4, c1, m1, m2, c2, d1, d2] =>
    isDigitChar y1 && isDigitChar y2 && isDigitChar y3 && isDigitChar y4 &&
    (c1 == '-') && isDigitChar m1 && isDigitChar m2 &&
    (c2 == '-') && isDigitChar d1 && isDigitChar d2 &&
    (let y := ((y1.toNat - 48) * 10 + (y2.toNat - 48)) * 100 + twoDigits y3 y4
     let m := twoDigits m1 m2
     let d := twoDigits d1 d2
     decide (1 ≤ m) && decide (m ≤ 12) && decide (1 ≤ d) && decide (d ≤ daysInMonth y m))
  | _ => false

/-- Outcome of the save-balance handler: 400 or the saved row echoed back. -/
inductive BalanceResult where
  | badRequest (msg : String)
  | ok (id : Int) (date : String) (openingBalance : Int) (closingBalance : Option Int)
  deriving Repr, DecidableEq

/-- Whether a `BalanceResult` is the 400 branch. -/
def BalanceResult.isBadRequest : BalanceResult → Bool
  | .badRequest _ => true
  | .ok _ _ _ _ => false

/-- The `UPDATE ... SET updateData WHERE date = body.date` of the balance
handler applied to one row: only the supplied fields are in `updateData`. -/
def applyBalanceUpdate (body : SaveBalanceRequest) (r : BalanceRow) : BalanceRow :=
  { r with
      openingBalance := body.openingBalance.getD r.openingBalance
      closingBalance :=
        match body.closingBalance with
        | some c => some c
        | none => r.closingBalance }

/-- `POST /api/balance` (`POST` of `src/app/api/balance/route.ts`). `newId`
is the id SQLite would assign on insert.  The `typeof` checks on the two
amounts always pass in the typed embedding and are elided. -/
def balancePOST (store : List BalanceRow) (body : SaveBalanceRequest)
    (newId : Int) : BalanceResult × List BalanceRow :=
  match body.date with
  | none => (.badRequest "Date is required", store)
  | some date =>
    if date = "" then (.badRequest "Date is required", store)
    else if ¬ isValidDate date then
      (.badRequest "Invalid date format. Use YYYY-MM-DD", store)
    else if body.openingBalance = none ∧ body.closingBalance = none then
      (.badRequest "At least one of openingBalance or closingBalance is required", store)
    else
      match store.find? (fun r => r.date == date) with
      | some _ =>
        let newStore := store.map
          (fun r => if r.date == date then applyBalanceUpdate body r else r)
        match newStore.find? (fun r => r.date == date) with
        | some updated =>
          (.ok updated.id updated.date updated.openingBalance updated.closingBalance,
           newStore)
        | none => (.badRequest "unreachable", newStore)
      | none =>
        match body.openingBalance with
        | none => (.badRequest "openingBalance is required for new records", store)
        | some ob =>
          let row : BalanceRow :=
            { id := newId, date := date, openingBalance := ob
              closingBalance := body.closingBalance }
          (.ok newId date ob body.closingBalance, store ++ [row])

/-- A concrete store (two menu rows, no orders) used to instantiate the
theorems at concrete inputs. -/
def sampleStore : Store :=
  { menuItems := [{ id := 1, name := "Fried Noodles", price := 1000 },
                  { id := 2, name := "Gyoza", price := 800 }]
    orders := []
    orderItems := [] }

/-- A concrete served order row. -/
def sampleOrderRow : OrderRow :=
  { id := 7, orderNumber := "001", tableNumber := some "T5", status := "served"
    total := 1000, createdAt := 500, updatedAt := 500 }

/-- `sampleStore` with one served order, for exercising the status-update
handler. -/
def sampleStoreWithOrder : Store :=
  { sampleStore with orders := [sampleOrderRow] }

/-- A concrete `daily_balance` table with one row. -/
def sampleBalances : List BalanceRow :=
  [{ id := 1, date := "2024-01-10", openingBalance := 100, closingBalance := none }]

/-- The primary-key invariant of the `menu_items` table: ids are pairwise
distinct. -/
def menuPK (store : Store) : Prop :=
  (store.menuItems.map (fun m => m.id)).Nodup

/-- A submitted item resolves: some menu row carries its `menuItemId`. -/
def resolves (store : Store) (it : OrderItemRequest) : Prop :=
  ∃ m ∈ store.menuItems, m.id = it.menuItemId

instance (store : Store) : Decidable (menuPK store) := by
  unfold menuPK; infer_instance

instance (store : Store) (it : OrderItemRequest) : Decidable (resolves store it) := by
  unfold resolves; infer_instance

/-! ## Helper lemmas -/

theorem find?_eq_some_of_unique {α : Type} (p : α → Bool) (l : List α) (a : α)
    (ha : a ∈ l) (hp : p a = true) (huniq : ∀ b ∈ l, p b = true → b = a) :
    l.find? p = some a := by
  induction l with
  | nil => cases ha
  | cons b t ih =>
    by_cases hb : p b = true
    · have : b = a := huniq b (List.mem_cons_self b t) hb
      subst this
      simp [List.find?, hp]
    · have hba : b ≠ a := fun h => hb (h ▸ hp)
      have hat : a ∈ t := by
        rcases List.mem_cons.mp ha with h | h
        · exact absurd h.symm hba
        · exact h
      simp only [List.find?]
      rw [Bool.of_not_eq_true hb]
      exact ih hat (fun c hc hpc => huniq c (List.mem_cons_of_mem b hc) hpc)

theorem mem_of_mem_enumFrom {α : Type} {p : Nat × α} {l : List α} {n : Nat}
    (h : p ∈ l.enumFrom n) : p.2 ∈ l := by
  induction l generalizing n with
  | nil => cases h
  | cons b t ih =>
    rcases List.mem_cons.mp h with h | h
    · subst h; exact List.mem_cons_self b t
    · exact List.mem_cons_of_mem b (ih h)

theorem mem_of_mem_enum {α : Type} {p : Nat × α} {l : List α}
    (h : p ∈ l.enum) : p.2 ∈ l :=
  mem_of_mem_enumFrom h

theorem enumFrom_map_snd {α β : Type} (l : List α) (g : α → β) :
    ∀ n, (l.enumFrom n).map (fun p => g p.2) = l.map g := by
  induction l with
  | nil => intro n; rfl
  | cons a t ih => intro n; simp [List.enumFrom, ih]

theorem menu_row_unique {store : Store} (hpk : menuPK store)
    {m m' : MenuItem} (hm : m ∈ store.menuItems) (hm' : m' ∈ store.menuItems)
    (hid : m.id = m'.id) : m = m' :=
  List.inj_on_of_nodup_map hpk hm hm' hid

theorem currentPrice_eq {store : Store} (hpk : menuPK store)
    {m0 : MenuItem} (hm0 : m0 ∈ store.menuItems) :
    currentPrice store m0.id = some m0.price := by
  unfold currentPrice
  rw [find?_eq_some_of_unique (fun m => m.id == m0.id) store.menuItems m0 hm0
    (beq_self_eq_true m0.id)
    (fun b hb hpb => menu_row_unique hpk hb hm0 (eq_of_beq hpb))]
  rfl

theorem priceMapGet_filter_eq {store : Store} (ids : List Int) (hpk : menuPK store)
    {m0 : MenuItem} (hm0 : m0 ∈ store.menuItems) (hid : m0.id ∈ ids) :
    priceMapGet (store.menuItems.filter (fun m => ids.contains m.id)) m0.id =
      some m0.price := by
  unfold priceMapGet
  have hmem : m0 ∈ (store.menuItems.filter (fun m => ids.contains m.id)).reverse := by
    rw [List.mem_reverse, List.mem_filter]
    exact ⟨hm0, List.elem_eq_true_of_mem hid⟩
  rw [find?_eq_some_of_unique (fun m => m.id == m0.id) _ m0 hmem
    (beq_self_eq_true m0.id)
    (fun b hb hpb => by
      rw [List.mem_reverse, List.mem_filter] at hb
      exact menu_row_unique hpk hb.1 hm0 (eq_of_beq hpb))]
  rfl

theorem computeTotal_ok (store : Store) (priceOf : Int → Option Int)
    (items : List OrderItemRequest)
    (h : ∀ it ∈ items, priceOf it.menuItemId = currentPrice store it.menuItemId ∧
      (currentPrice store it.menuItemId).isSome = true) :
    computeTotal priceOf items = .ok (orderTotal store items) := by
  induction items with
  | nil => simp [computeTotal, orderTotal]
  | cons it t ih =>
    have hit := h it (List.mem_cons_self it t)
    obtain ⟨p, hp⟩ := Option.isSome_iff_exists.mp hit.2
    have ht := ih (fun x hx => h x (List.mem_cons_of_mem it hx))
    simp only [computeTotal, hit.1, hp, ht, orderTotal, List.map_cons, List.sum_cons,
      Option.getD_some]

theorem filter_length_eq {store : Store} {ids : List Int} (hpk : menuPK store)
    (hnd : ids.Nodup) (hres : ∀ id ∈ ids, ∃ m ∈ store.menuItems, m.id = id) :
    (store.menuItems.filter (fun m => ids.contains m.id)).length = ids.length := by
  set fd := store.menuItems.filter (fun m => ids.contains m.id) with hfd
  have hsub : List.Sublist fd store.menuItems := List.filter_sublist store.menuItems
  have hfids : (fd.map (fun m => m.id)).Nodup :=
    List.Nodup.sublist (hsub.map (fun m => m.id)) hpk
  have hset : (fd.map (fun m => m.id)).toFinset = ids.toFinset := by
    ext x
    simp only [List.mem_toFinset, List.mem_map]
    constructor
    · rintro ⟨m, hm, rfl⟩
      rw [hfd, List.mem_filter] at hm
      exact List.mem_of_elem_eq_true hm.2
    · intro hx
      obtain ⟨m, hm, rfl⟩ := hres x hx
      refine ⟨m, ?_, rfl⟩
      rw [hfd, List.mem_filter]
      exact ⟨hm, List.elem_eq_true_of_mem hx⟩
  calc fd.length = (fd.map (fun m => m.id)).length := (List.length_map _ _).symm
    _ = (fd.map (fun m => m.id)).toFinset.card :=
        (List.toFinset_card_of_nodup hfids).symm
    _ = ids.toFinset.card := by rw [hset]
    _ = ids.length := List.toFinset_card_of_nodup hnd

theorem filter_length_lt {store : Store} {ids : List Int} (hpk : menuPK store)
    (hnd : ¬ ids.Nodup) :
    (store.menuItems.filter (fun m => ids.contains m.id)).length < ids.length := by
  set fd := store.menuItems.filter (fun m => ids.contains m.id) with hfd
  have hsub : List.Sublist fd store.menuItems := List.filter_sublist store.menuItems
  have hfids : (fd.map (fun m => m.id)).Nodup :=
    List.Nodup.sublist (hsub.map (fun m => m.id)) hpk
  have hsubset : (fd.map (fun m => m.id)).toFinset ⊆ ids.toFinset := by
    intro x hx
    rw [List.mem_toFinset, List.mem_map] at hx
    obtain ⟨m, hm, rfl⟩ := hx
    rw [hfd, List.mem_filter] at hm
    exact List.mem_toFinset.mpr (List.mem_of_elem_eq_true hm.2)
  have hdlt : ids.dedup.length < ids.length := by
    have hle : ids.dedup.length ≤ ids.length := ids.dedup_sublist.length_le
    rcases Nat.lt_or_ge ids.dedup.length ids.length with h | h
    · exact h
    · exfalso
      have heq : ids.dedup = ids :=
        ids.dedup_sublist.eq_of_length (Nat.le_antisymm hle h)
      exact hnd (heq ▸ ids.nodup_dedup)
  calc fd.length = (fd.map (fun m => m.id)).length := (List.length_map _ _).symm
    _ = (fd.map (fun m => m.id)).toFinset.card :=
        (List.toFinset_card_of_nodup hfids).symm
    _ ≤ ids.toFinset.card := Finset.card_le_card hsubset
    _ = ids.dedup.length := List.card_toFinset ids
    _ < ids.length := hdlt

theorem ordersPOST_success_spec
    (store : Store) (body : CreateOrderRequest) (now : Nat) (oid base : Int)
    (items : List OrderItemRequest)
    (hitems : body.items = some items)
    (hne : items ≠ [])
    (hdup : (items.map (fun it => it.menuItemId)).Nodup)
    (hpk : menuPK store)
    (hres : ∀ it ∈ items, resolves store it) :
    ordersPOST store body now oid base =
      (.created oid (generateOrderNumber (todaysOrders store now).length),
       { store with
           orders := store.orders ++
             [{ id := oid
                orderNumber := generateOrderNumber (todaysOrders store now).length
                tableNumber := strOrNull body.tableNumber
                status := "pending"
                total := orderTotal store items
                createdAt := now
                updatedAt := now }]
           orderItems := store.orderItems ++ items.enum.map (fun p =>
             { id := base + (p.1 : Int)
               orderId := oid
               menuItemId := p.2.menuItemId
               quantity := p.2.quantity
               notes := strOrNull p.2.notes
               priceAtTime := (currentPrice store p.2.menuItemId).getD 0 }) }) := by
  have hres' : ∀ id ∈ items.map (fun it => it.menuItemId),
      ∃ m ∈ store.menuItems, m.id = id := by
    intro id hid
    rw [List.mem_map] at hid
    obtain ⟨it, hit, rfl⟩ := hid
    exact hres it hit
  have hprice : ∀ it ∈ items,
      priceMapGet (store.menuItems.filter
          (fun m => (items.map (fun it => it.menuItemId)).contains m.id)) it.menuItemId
        = currentPrice store it.menuItemId ∧
      (currentPrice store it.menuItemId).isSome = true := by
    intro it hit
    obtain ⟨m0, hm0, hm0id⟩ := hres it hit
    have hidmem : m0.id ∈ items.map (fun it => it.menuItemId) := by
      rw [hm0id, List.mem_map]
      exact ⟨it, hit, rfl⟩
    rw [← hm0id]
    rw [priceMapGet_filter_eq _ hpk hm0 hidmem, currentPrice_eq hpk hm0]
    exact ⟨rfl, rfl⟩
  have hlen := filter_length_eq hpk hdup hres'
  have hct := computeTotal_ok store
    (priceMapGet (store.menuItems.filter
      (fun m => (items.map (fun it => it.menuItemId)).contains m.id)))
    items hprice
  have hmk : items.enum.map (fun p =>
      mkItemRow base oid (priceMapGet (store.menuItems.filter
        (fun m => (items.map (fun it => it.menuItemId)).contains m.id))) p.1 p.2) =
      items.enum.map (fun p =>
        { id := base + (p.1 : Int)
          orderId := oid
          menuItemId := p.2.menuItemId
          quantity := p.2.quantity
          notes := strOrNull p.2.notes
          priceAtTime := (currentPrice store p.2.menuItemId).getD 0 }) := by
    apply List.map_congr_left
    intro p hp
    have hmem : p.2 ∈ items := mem_of_mem_enum hp
    unfold mkItemRow
    rw [(hprice p.2 hmem).1]
  unfold ordersPOST
  rw [hitems]
  simp only
  rw [if_neg (by simpa using hne), if_neg (not_ne_iff.mpr hlen), hct]
  simp only
  rw [hmk]

theorem computeTotal_error_of_missing (priceOf : Int → Option Int)
    (items : List OrderItemRequest)
    (h : ∃ it ∈ items, priceOf it.menuItemId = none) :
    ∃ e, computeTotal priceOf items = .error e := by
  induction items with
  | nil => simp at h
  | cons it t ih =>
    cases hp : priceOf it.menuItemId with
    | none => exact ⟨it.menuItemId, by simp [computeTotal, hp]⟩
    | some p =>
      obtain ⟨it0, hit0, h0⟩ := h
      rcases List.mem_cons.mp hit0 with h | h
      · subst h; rw [h0] at hp; cases hp
      · obtain ⟨e, he⟩ := ih ⟨it0, h, h0⟩
        exact ⟨e, by simp [computeTotal, hp, he]⟩

theorem ordersPOST_unknown_reject
    (store : Store) (body : CreateOrderRequest) (now : Nat) (oid base : Int)
    (items : List OrderItemRequest) (it0 : OrderItemRequest)
    (hitems : body.items = some items) (hit0 : it0 ∈ items)
    (hunk : ∀ m ∈ store.menuItems, m.id ≠ it0.menuItemId) :
    (ordersPOST store body now oid base).1.isBadRequest = true ∧
    (ordersPOST store body now oid base).2 = store := by
  have hne : items ≠ [] := List.ne_nil_of_mem hit0
  unfold ordersPOST
  rw [hitems]
  simp only
  rw [if_neg (by simpa using hne)]
  by_cases hg : (store.menuItems.filter
      (fun m => (items.map (fun it => it.menuItemId)).contains m.id)).length ≠
      (items.map (fun it => it.menuItemId)).length
  · rw [if_pos hg]
    exact ⟨rfl, rfl⟩
  · rw [if_neg hg]
    have hnone : priceMapGet (store.menuItems.filter
        (fun m => (items.map (fun it => it.menuItemId)).contains m.id))
        it0.menuItemId = none := by
      unfold priceMapGet
      rw [List.find?_eq_none.mpr]
      · rfl
      · intro m hm hbeq
        rw [List.mem_reverse, List.mem_filter] at hm
        exact hunk m hm.1 (eq_of_beq hbeq)
    obtain ⟨e, he⟩ := computeTotal_error_of_missing _ items ⟨it0, hit0, hnone⟩
    rw [he]
    exact ⟨rfl, rfl⟩

theorem ordersPOST_dup_reject
    (store : Store) (body : CreateOrderRequest) (now : Nat) (oid base : Int)
    (items : List OrderItemRequest)
    (hitems : body.items = some items)
    (hdup : ¬ (items.map (fun it => it.menuItemId)).Nodup)
    (hpk : menuPK store) :
    ordersPOST store body now oid base =
      (.badRequest "One or more menu items not found", store) := by
  have hne : items ≠ [] := by
    intro h
    subst h
    exact hdup (by simp)
  unfold ordersPOST
  rw [hitems]
  simp only
  rw [if_neg (by simpa using hne),
    if_pos (Nat.ne_of_lt (filter_length_lt hpk hdup))]

theorem getStartOfDay_sameDay {a b : Nat} (h : a / msPerDay = b / msPerDay) :
    getStartOfDay a = getStartOfDay b := by
  unfold getStartOfDay
  rw [h]

theorem todaysOrders_sameDay (s : Store) {a b : Nat}
    (h : a / msPerDay = b / msPerDay) :
    todaysOrders s a = todaysOrders s b := by
  unfold todaysOrders getEndOfDay
  rw [getStartOfDay_sameDay h]

theorem createdAt_in_window {t now : Nat} (hday : t / msPerDay = now / msPerDay)
    (hms : t % msPerDay < msPerDay - 1) :
    (decide (getStartOfDay now ≤ t) && decide (t < getEndOfDay now)) = true := by
  simp only [getEndOfDay, getStartOfDay, msPerDay] at *
  simp only [Bool.and_eq_true, decide_eq_true_eq]
  omega

theorem todaysOrders_eq_filter (s : Store) (now : Nat) :
    todaysOrders s now = s.orders.filter
      (fun o => decide (getStartOfDay now ≤ o.createdAt) &&
                decide (o.createdAt < getEndOfDay now)) := rfl

theorem filter_singleton_in_window (o : OrderRow) (now : Nat)
    (hday : o.createdAt / msPerDay = now / msPerDay)
    (hms : o.createdAt % msPerDay < msPerDay - 1) :
    [o].filter (fun r => decide (getStartOfDay now ≤ r.createdAt) &&
        decide (r.createdAt < getEndOfDay now)) = [o] := by
  rw [List.filter_cons, createdAt_in_window hday hms]
  rfl

theorem ordersPOST_step
    (store : Store) (body : CreateOrderRequest) (now : Nat) (oid base : Int)
    (items : List OrderItemRequest)
    (hitems : body.items = some items)
    (hne : items ≠ [])
    (hdup : (items.map (fun it => it.menuItemId)).Nodup)
    (hpk : menuPK store)
    (hres : ∀ it ∈ items, resolves store it) :
    (ordersPOST store body now oid base).1 =
      .created oid (generateOrderNumber (todaysOrders store now).length) ∧
    (ordersPOST store body now oid base).2.menuItems = store.menuItems ∧
    ∃ row, (ordersPOST store body now oid base).2.orders = store.orders ++ [row] ∧
      row.createdAt = now := by
  have h := ordersPOST_success_spec store body now oid base items
    hitems hne hdup hpk hres
  rw [h]
  exact ⟨rfl, rfl, ⟨_, rfl, rfl⟩⟩

theorem serializeOrders_ne_empty (l : List OrderWithItems) :
    serializeOrders l ≠ "" := by
  unfold serializeOrders
  intro h
  have hl := congrArg String.length h
  rw [String.length_append, String.length_append] at hl
  have h1 : String.length "[" = 1 := rfl
  have h2 : String.length "]" = 1 := rfl
  have h0 : String.length "" = 0 := rfl
  omega

/-! ## Claim C4 -/

/-- C4 is violated by the source: when the kitchen client disconnects, the
Streams runtime runs the underlying source's `cancel()` handler, whose body
is empty, and never invokes the `cleanup` closure that `start` merely
*returns* — so neither `clearInterval` runs and both per-connection interval
timers stay scheduled after teardown.  Evaluated here on a concrete
connection (empty snapshot, then client disconnect): both timers are still
active, while the orphaned `cleanup` closure would have cleared them. -/
theorem c4_timers_keep_running :
    ((onClientDisconnect (streamConnect (Except.ok [])).1).pollTimerActive = true) ∧
    ((onClientDisconnect (streamConnect (Except.ok [])).1).heartbeatTimerActive = true) ∧
    ((cleanup (streamConnect (Except.ok [])).1).pollTimerActive = false) ∧
    ((cleanup (streamConnect (Except.ok [])).1).heartbeatTimerActive = false) :=
  ⟨rfl, rfl, rfl, rfl⟩

/-! ## Claim C5 -/

/-- C5: on a poll tick of a live connection whose snapshot read succeeds, an
`orders` event is enqueued iff the serialized snapshot differs (as a full
string comparison) from the last serialized snapshot sent on that
connection; when they are equal, nothing is enqueued for the tick. -/
theorem c5_orders_event_iff_snapshot_changed (s : StreamState)
    (data : List OrderWithItems) (hopen : s.isControllerClosed = false) :
    ((checkForUpdates s (Except.ok data)).2 =
        [{ eventType := "orders", data := ordersPayload data }] ↔
      serializeOrders data ≠ s.lastDataHash) ∧
    (serializeOrders data = s.lastDataHash →
      (checkForUpdates s (Except.ok data)).2 = []) := by
  unfold checkForUpdates
  rw [hopen, if_neg (fun h => Bool.noConfusion h)]
  simp only
  by_cases hch : serializeOrders data ≠ s.lastDataHash
  · rw [if_pos hch]
    constructor
    · constructor
      · intro _
        exact hch
      · intro _
        rfl
    · intro heq
      exact absurd heq hch
  · rw [if_neg hch]
    push_neg at hch
    constructor
    · constructor
      · intro h
        exact List.noConfusion h
      · intro hne
        exact absurd hch hne
    · intro _
      rfl

/-- C5, witness: immediately after connecting over an empty store, a tick
that reads the same empty snapshot again enqueues nothing. -/
theorem c5_witness :
    ((streamConnect (Except.ok [])).1.isControllerClosed = false) ∧
    ((checkForUpdates (streamConnect (Except.ok [])).1 (Except.ok [])).2 = []) := by
  refine ⟨rfl, ?_⟩
  exact (c5_orders_event_iff_snapshot_changed
    (streamConnect (Except.ok [])).1 [] rfl).2 rfl

/-! ## Claim C6 -/

/-- C6, counterexample: the claim quantifies over *every* new connection, but
on a connection whose initial snapshot read throws (`getDb` failing, as the
repository's own stream test exercises), the first — and only — initial
event is labeled `error`, not `orders`. -/
theorem c6_counterexample :
    ((streamConnect (Except.error "Database connection failed")).2).map
      (fun e => e.eventType) = ["error"] := rfl

/-- C6 (amended: restricted to connections whose initial snapshot read
succeeds, since a thrown read produces an `error`-labeled first event): the
first event delivered on a new connection is labeled `orders` and carries the
serialized current snapshot of today's orders, even when that snapshot is
empty. -/
theorem c6_first_event_is_orders (store : Store) (now : Nat) :
    (streamConnect (Except.ok (fetchTodaysOrders store now))).2 =
      [{ eventType := "orders"
         data := ordersPayload (fetchTodaysOrders store now) }] := by
  have hne := serializeOrders_ne_empty (fetchTodaysOrders store now)
  unfold streamConnect checkForUpdates
  simp only
  rw [if_neg (fun h => Bool.noConfusion h), if_pos hne]

/-! ## Claim C8 -/

/-- C8: saving a daily balance for a date with no existing record and no
`openingBalance` in the body is answered 400 and inserts nothing; saving for
a date that has a record rewrites only the supplied fields of that record —
each unsupplied field and the row's `date` (and id) stay as they were, and
rows of other dates are untouched. -/
theorem c8_balance_upsert (store : List BalanceRow) (body : SaveBalanceRequest)
    (newId : Int) (d : String)
    (hdate : body.date = some d) (hvalid : isValidDate d = true) :
    (store.find? (fun r => r.date == d) = none → body.openingBalance = none →
      (balancePOST store body newId).1.isBadRequest = true ∧
      (balancePOST store body newId).2 = store) ∧
    (∀ r0, store.find? (fun r => r.date == d) = some r0 →
      (body.openingBalance ≠ none ∨ body.closingBalance ≠ none) →
      (balancePOST store body newId).1.isBadRequest = false ∧
      (balancePOST store body newId).2 = store.map
        (fun r => if r.date == d then applyBalanceUpdate body r else r) ∧
      (applyBalanceUpdate body r0).id = r0.id ∧
      (applyBalanceUpdate body r0).date = r0.date ∧
      (body.openingBalance = none →
        (applyBalanceUpdate body r0).openingBalance = r0.openingBalance) ∧
      (body.closingBalance = none →
        (applyBalanceUpdate body r0).closingBalance = r0.closingBalance)) := by
  have hdne : d ≠ "" := by
    intro h
    rw [h] at hvalid
    exact Bool.noConfusion hvalid
  unfold balancePOST
  rw [hdate]
  simp only
  rw [if_neg hdne, if_neg (not_not_intro hvalid)]
  constructor
  · intro hfn hon
    cases hcb : body.closingBalance with
    | none =>
      rw [if_pos ⟨hon, rfl⟩]
      exact ⟨rfl, rfl⟩
    | some c =>
      rw [if_neg (by
        rintro ⟨-, h⟩
        exact Option.noConfusion h)]
      rw [hfn, hon]
      exact ⟨rfl, rfl⟩
  · intro r0 hf hsup
    rw [if_neg (by
      rintro ⟨h1, h2⟩
      rcases hsup with h | h
      · exact h h1
      · exact h h2)]
    rw [hf]
    have hpr0 := List.find?_some hf
    have hfind2 : (store.map
        (fun r => if r.date == d then applyBalanceUpdate body r else r)).find?
        (fun r => r.date == d) = some (applyBalanceUpdate body r0) := by
      rw [List.find?_map]
      have hpred : store.find? ((fun r : BalanceRow => r.date == d) ∘
          (fun r => if r.date == d then applyBalanceUpdate body r else r)) =
          store.find? (fun r => r.date == d) := by
        congr 1
        funext r
        by_cases hc : (r.date == d) = true
        · simp only [Function.comp]
          rw [if_pos hc]
          rfl
        · simp only [Function.comp]
          rw [if_neg hc]
      rw [hpred, hf]
      show some (if (r0.date == d) = true then applyBalanceUpdate body r0 else r0) =
        some (applyBalanceUpdate body r0)
      rw [if_pos hpr0]
    rw [hfind2]
    refine ⟨rfl, rfl, rfl, rfl, ?_, ?_⟩
    · intro h
      show body.openingBalance.getD r0.openingBalance = r0.openingBalance
      rw [h]
      rfl
    · intro h
      show (match body.closingBalance with
        | some c => some c
        | none => r0.closingBalance) = r0.closingBalance
      rw [h]

/-- C8, witness: posting `closingBalance = 500` for the already-recorded date
`2024-01-10` updates only that field; the existing opening balance and the
date survive. -/
theorem c8_witness :
    ((balancePOST sampleBalances
      { date := some "2024-01-10", openingBalance := none,
        closingBalance := some 500 } 2).1.isBadRequest = false) ∧
    ((balancePOST sampleBalances
      { date := some "2024-01-10", openingBalance := none,
        closingBalance := some 500 } 2).2 =
      [{ id := 1, date := "2024-01-10", openingBalance := 100,
         closingBalance := some 500 }]) := by
  have h := (c8_balance_upsert sampleBalances
    { date := some "2024-01-10", openingBalance := none, closingBalance := some 500 }
    2 "2024-01-10" rfl (by decide)).2
    { id := 1, date := "2024-01-10", openingBalance := 100, closingBalance := none }
    (by decide) (Or.inr (by decide))
  refine ⟨h.1, ?_⟩
  rw [h.2.1]
  decide

/-! ## Claim C2 -/

/-- C2: a successful submission is numbered
`generateOrderNumber (todaysOrders …)` — the count of orders whose creation
timestamp lies in `[startOfToday, endOfToday)` of the server-local day, plus
one, zero-padded to three digits — and three sequential submissions on a day
with no prior orders are numbered `"001"`, `"002"`, `"003"`. -/
theorem c2_daily_sequential_order_numbers
    (store0 : Store) (b1 b2 b3 : CreateOrderRequest)
    (i1 i2 i3 : List OrderItemRequest) (t1 t2 t3 : Nat)
    (o1 o2 o3 ib1 ib2 ib3 : Int)
    (hpk : menuPK store0)
    (hb1 : b1.items = some i1) (hne1 : i1 ≠ [])
    (hd1 : (i1.map (fun it => it.menuItemId)).Nodup)
    (hr1 : ∀ it ∈ i1, resolves store0 it)
    (hb2 : b2.items = some i2) (hne2 : i2 ≠ [])
    (hd2 : (i2.map (fun it => it.menuItemId)).Nodup)
    (hr2 : ∀ it ∈ i2, resolves store0 it)
    (hb3 : b3.items = some i3) (hne3 : i3 ≠ [])
    (hd3 : (i3.map (fun it => it.menuItemId)).Nodup)
    (hr3 : ∀ it ∈ i3, resolves store0 it)
    (hday12 : t1 / msPerDay = t2 / msPerDay)
    (hday23 : t2 / msPerDay = t3 / msPerDay)
    (hms1 : t1 % msPerDay < msPerDay - 1)
    (hms2 : t2 % msPerDay < msPerDay - 1)
    (hempty : todaysOrders store0 t1 = []) :
    ((ordersPOST store0 b1 t1 o1 ib1).1 =
      .created o1 (generateOrderNumber (todaysOrders store0 t1).length)) ∧
    ((ordersPOST store0 b1 t1 o1 ib1).1 = .created o1 "001") ∧
    ((ordersPOST (ordersPOST store0 b1 t1 o1 ib1).2 b2 t2 o2 ib2).1 =
      .created o2 (generateOrderNumber
        (todaysOrders (ordersPOST store0 b1 t1 o1 ib1).2 t2).length)) ∧
    ((ordersPOST (ordersPOST store0 b1 t1 o1 ib1).2 b2 t2 o2 ib2).1 =
      .created o2 "002") ∧
    ((ordersPOST (ordersPOST (ordersPOST store0 b1 t1 o1 ib1).2 b2 t2 o2 ib2).2
        b3 t3 o3 ib3).1 =
      .created o3 (generateOrderNumber
        (todaysOrders (ordersPOST (ordersPOST store0 b1 t1 o1 ib1).2 b2 t2 o2 ib2).2
          t3).length)) ∧
    ((ordersPOST (ordersPOST (ordersPOST store0 b1 t1 o1 ib1).2 b2 t2 o2 ib2).2
        b3 t3 o3 ib3).1 =
      .created o3 "003") := by
  obtain ⟨hn1, hmenu1, row1, horders1, hcreated1⟩ :=
    ordersPOST_step store0 b1 t1 o1 ib1 i1 hb1 hne1 hd1 hpk hr1
  have hpk2 : menuPK (ordersPOST store0 b1 t1 o1 ib1).2 := by
    unfold menuPK
    rw [hmenu1]
    exact hpk
  have hr2s : ∀ it ∈ i2, resolves (ordersPOST store0 b1 t1 o1 ib1).2 it := by
    intro it hit
    unfold resolves
    rw [hmenu1]
    exact hr2 it hit
  obtain ⟨hn2, hmenu2, row2, horders2, hcreated2⟩ :=
    ordersPOST_step (ordersPOST store0 b1 t1 o1 ib1).2 b2 t2 o2 ib2 i2
      hb2 hne2 hd2 hpk2 hr2s
  have hpk3 : menuPK (ordersPOST (ordersPOST store0 b1 t1 o1 ib1).2 b2 t2 o2 ib2).2 := by
    unfold menuPK
    rw [hmenu2, hmenu1]
    exact hpk
  have hr3s : ∀ it ∈ i3,
      resolves (ordersPOST (ordersPOST store0 b1 t1 o1 ib1).2 b2 t2 o2 ib2).2 it := by
    intro it hit
    unfold resolves
    rw [hmenu2, hmenu1]
    exact hr3 it hit
  obtain ⟨hn3, hmenu3, row3, horders3, hcreated3⟩ :=
    ordersPOST_step (ordersPOST (ordersPOST store0 b1 t1 o1 ib1).2 b2 t2 o2 ib2).2
      b3 t3 o3 ib3 i3 hb3 hne3 hd3 hpk3 hr3s
  have hempty2 : todaysOrders store0 t2 = [] := by
    rw [todaysOrders_sameDay store0 hday12.symm]
    exact hempty
  have hempty3 : todaysOrders store0 t3 = [] := by
    rw [todaysOrders_sameDay store0 (hday12.trans hday23).symm]
    exact hempty
  have hcount2 : (todaysOrders (ordersPOST store0 b1 t1 o1 ib1).2 t2).length = 1 := by
    rw [todaysOrders_eq_filter, horders1, List.filter_append,
      ← todaysOrders_eq_filter, hempty2,
      filter_singleton_in_window row1 t2 (by rw [hcreated1]; exact hday12)
        (by rw [hcreated1]; exact hms1)]
    rfl
  have hcount3 : (todaysOrders
      (ordersPOST (ordersPOST store0 b1 t1 o1 ib1).2 b2 t2 o2 ib2).2 t3).length = 2 := by
    rw [todaysOrders_eq_filter, horders2, horders1, List.filter_append,
      List.filter_append, ← todaysOrders_eq_filter, hempty3,
      filter_singleton_in_window row1 t3
        (by rw [hcreated1]; exact hday12.trans hday23)
        (by rw [hcreated1]; exact hms1),
      filter_singleton_in_window row2 t3
        (by rw [hcreated2]; exact hday23)
        (by rw [hcreated2]; exact hms2)]
    rfl
  refine ⟨hn1, ?_, hn2, ?_, hn3, ?_⟩
  · rw [hn1, hempty]
    congr 1
  · rw [hn2, hcount2]
    congr 1
  · rw [hn3, hcount3]
    congr 1

/-- C2, witness: three concrete one-noodle submissions at 1 s, 2 s and 3 s
past local midnight on an empty day are numbered `"001"`, `"002"`, `"003"`. -/
theorem c2_witness :
    ((ordersPOST sampleStore
      { items := some [{ menuItemId := 1, quantity := 1, notes := none }],
        tableNumber := none } 1000 1 10).1 = .created 1 "001") ∧
    ((ordersPOST (ordersPOST sampleStore
      { items := some [{ menuItemId := 1, quantity := 1, notes := none }],
        tableNumber := none } 1000 1 10).2
      { items := some [{ menuItemId := 1, quantity := 1, notes := none }],
        tableNumber := none } 2000 2 20).1 = .created 2 "002") ∧
    ((ordersPOST (ordersPOST (ordersPOST sampleStore
      { items := some [{ menuItemId := 1, quantity := 1, notes := none }],
        tableNumber := none } 1000 1 10).2
      { items := some [{ menuItemId := 1, quantity := 1, notes := none }],
        tableNumber := none } 2000 2 20).2
      { items := some [{ menuItemId := 1, quantity := 1, notes := none }],
        tableNumber := none } 3000 3 30).1 = .created 3 "003") := by
  have h := c2_daily_sequential_order_numbers sampleStore
    { items := some [{ menuItemId := 1, quantity := 1, notes := none }],
      tableNumber := none }
    { items := some [{ menuItemId := 1, quantity := 1, notes := none }],
      tableNumber := none }
    { items := some [{ menuItemId := 1, quantity := 1, notes := none }],
      tableNumber := none }
    [{ menuItemId := 1, quantity := 1, notes := none }]
    [{ menuItemId := 1, quantity := 1, notes := none }]
    [{ menuItemId := 1, quantity := 1, notes := none }]
    1000 2000 3000 1 2 3 10 20 30
    (by decide) rfl (by decide) (by decide) (by decide)
    rfl (by decide) (by decide) (by decide)
    rfl (by decide) (by decide) (by decide)
    (by decide) (by decide) (by decide) (by decide) rfl
  exact ⟨h.2.1, h.2.2.2.1, h.2.2.2.2.2⟩

/-! ## Claim C1 -/

/-- C1, counterexample: the claim quantifies over every submission whose
`menuItemIds` all resolve to existing menu items and asserts an order is
persisted.  The submission `[⟨menu item 1, qty 1⟩, ⟨menu item 1, qty 1⟩]`
against a store that has menu item 1 satisfies that hypothesis (the list is
non-empty and every referenced id resolves), yet the handler answers
400 `One or more menu items not found` and persists nothing, because it
compares the number of distinct matched rows (1) with the number of
submitted entries (2). -/
theorem c1_counterexample :
    ordersPOST sampleStore
      { items := some [{ menuItemId := 1, quantity := 1, notes := none },
                       { menuItemId := 1, quantity := 1, notes := none }],
        tableNumber := none } 1000 1 1 =
      (.badRequest "One or more menu items not found", sampleStore) ∧
    (∀ it ∈ [({ menuItemId := 1, quantity := 1, notes := none } : OrderItemRequest),
             { menuItemId := 1, quantity := 1, notes := none }],
      resolves sampleStore it) := by
  constructor
  · decide
  · decide

/-- C1 (amended: the submitted `menuItemIds` must additionally be pairwise
distinct, since the handler rejects duplicate ids even when they all
resolve): for every order submission with a non-empty items list whose
`menuItemIds` are distinct and all resolve, the handler persists an order
whose `total` is `Σ quantity_i × currentPrice_i` computed from the stored
menu prices (the request carries no price field, so client prices cannot
enter), and each persisted line item's `priceAtTime` is the current stored
menu price of its item. -/
theorem c1_total_from_current_prices
    (store : Store) (body : CreateOrderRequest) (now : Nat) (oid base : Int)
    (items : List OrderItemRequest)
    (hitems : body.items = some items)
    (hne : items ≠ [])
    (hdup : (items.map (fun it => it.menuItemId)).Nodup)
    (hpk : menuPK store)
    (hres : ∀ it ∈ items, resolves store it) :
    ((ordersPOST store body now oid base).1 =
      .created oid (generateOrderNumber (todaysOrders store now).length)) ∧
    ((ordersPOST store body now oid base).2.orders = store.orders ++
      [{ id := oid
         orderNumber := generateOrderNumber (todaysOrders store now).length
         tableNumber := strOrNull body.tableNumber
         status := "pending"
         total := orderTotal store items
         createdAt := now
         updatedAt := now }]) ∧
    ((ordersPOST store body now oid base).2.orderItems = store.orderItems ++
      items.enum.map (fun p =>
        { id := base + (p.1 : Int)
          orderId := oid
          menuItemId := p.2.menuItemId
          quantity := p.2.quantity
          notes := strOrNull p.2.notes
          priceAtTime := (currentPrice store p.2.menuItemId).getD 0 })) ∧
    (∀ it ∈ items, (currentPrice store it.menuItemId).isSome = true) := by
  have h := ordersPOST_success_spec store body now oid base items
    hitems hne hdup hpk hres
  rw [h]
  refine ⟨rfl, rfl, rfl, ?_⟩
  intro it hit
  obtain ⟨m0, hm0, hm0id⟩ := hres it hit
  rw [← hm0id, currentPrice_eq hpk hm0]
  rfl

/-- C1, witness: the two-line submission `[2 × item 1, 1 × item 2]` against
`sampleStore` is persisted with total `1000·2 + 800·1` and the stored menu
prices as `priceAtTime`. -/
theorem c1_witness :
    ((ordersPOST sampleStore
      { items := some [{ menuItemId := 1, quantity := 2, notes := none },
                       { menuItemId := 2, quantity := 1, notes := some "extra spicy" }],
        tableNumber := some "T5" } 1000 1 1).1 =
      .created 1 (generateOrderNumber (todaysOrders sampleStore 1000).length)) ∧
    ((ordersPOST sampleStore
      { items := some [{ menuItemId := 1, quantity := 2, notes := none },
                       { menuItemId := 2, quantity := 1, notes := some "extra spicy" }],
        tableNumber := some "T5" } 1000 1 1).2.orders = sampleStore.orders ++
      [{ id := 1
         orderNumber := generateOrderNumber (todaysOrders sampleStore 1000).length
         tableNumber := strOrNull (some "T5")
         status := "pending"
         total := orderTotal sampleStore
           [{ menuItemId := 1, quantity := 2, notes := none },
            { menuItemId := 2, quantity := 1, notes := some "extra spicy" }]
         createdAt := 1000
         updatedAt := 1000 }]) ∧
    orderTotal sampleStore
      [{ menuItemId := 1, quantity := 2, notes := none },
       { menuItemId := 2, quantity := 1, notes := some "extra spicy" }] = 2800 := by
  have h := c1_total_from_current_prices sampleStore
    { items := some [{ menuItemId := 1, quantity := 2, notes := none },
                     { menuItemId := 2, quantity := 1, notes := some "extra spicy" }],
      tableNumber := some "T5" } 1000 1 1
    [{ menuItemId := 1, quantity := 2, notes := none },
     { menuItemId := 2, quantity := 1, notes := some "extra spicy" }]
    rfl (by decide) (by decide) (by decide) (by decide)
  exact ⟨h.1, h.2.1, by decide⟩

/-! ## Claim C3 -/

/-- C3: an order submission whose `items` field is missing or not a list
(`items = none`), or is the empty list, or references at least one
`menuItemId` matching no menu row, is answered 400 and leaves the store
untouched: no order row and no line-item row is persisted. -/
theorem c3_invalid_order_rejected_no_persist
    (store : Store) (body : CreateOrderRequest) (now : Nat) (oid base : Int)
    (h : body.items = none ∨ body.items = some [] ∨
      ∃ items it0, body.items = some items ∧ it0 ∈ items ∧
        ∀ m ∈ store.menuItems, m.id ≠ it0.menuItemId) :
    (ordersPOST store body now oid base).1.isBadRequest = true ∧
    (ordersPOST store body now oid base).2 = store := by
  rcases h with h | h | ⟨items, it0, hitems, hit0, hunk⟩
  · unfold ordersPOST
    rw [h]
    exact ⟨rfl, rfl⟩
  · unfold ordersPOST
    rw [h]
    exact ⟨rfl, rfl⟩
  · exact ordersPOST_unknown_reject store body now oid base items it0 hitems hit0 hunk

/-- C3, witness: a submission referencing the unknown menu item 99 is
rejected and `sampleStore` is unchanged. -/
theorem c3_witness :
    (ordersPOST sampleStore
      { items := some [{ menuItemId := 99, quantity := 1, notes := none }],
        tableNumber := none } 1000 1 1).1.isBadRequest = true ∧
    (ordersPOST sampleStore
      { items := some [{ menuItemId := 99, quantity := 1, notes := none }],
        tableNumber := none } 1000 1 1).2 = sampleStore :=
  c3_invalid_order_rejected_no_persist sampleStore
    { items := some [{ menuItemId := 99, quantity := 1, notes := none }],
      tableNumber := none } 1000 1 1
    (Or.inr (Or.inr ⟨[{ menuItemId := 99, quantity := 1, notes := none }],
      { menuItemId := 99, quantity := 1, notes := none }, rfl, by decide, by decide⟩))

/-! ## Claim C7 -/

/-- C7, counterexample: the claim requires a 400 *only* when the status
literal is invalid or `orderId`/`status` is missing.  Here `status` is the
valid literal `pending` and `orderId` is supplied (the number `0`), so the
claim requires a 404 (no order has id 0), yet the handler answers 400,
because its JS `!body.orderId` guard treats the number `0` as missing. -/
theorem c7_counterexample :
    (ordersPATCH sampleStoreWithOrder
      { orderId := some 0, status := some "pending" } 999).1 =
      .badRequest "Order ID and status are required" ∧
    validStatuses.contains "pending" = true ∧
    (ordersPATCH sampleStoreWithOrder
      { orderId := some 0, status := some "pending" } 999).1.is404 = false := by
  refine ⟨?_, ?_, ?_⟩ <;> decide

/-- C7 (amended: the handler's `!` guard also fires on *falsy* supplied
values, i.e. `orderId = 0` or an empty-string status, which it treats as
missing): PATCH answers 400 iff `orderId`/`status` is missing or falsy or the
status is not one of the four literals; it answers 404 iff those checks pass
and no order carries the given id; otherwise it succeeds for every
(currentStatus, newStatus) pair — no transition-adjacency restriction, the
success branch never reads the current status — setting the matched order's
status to the new status and its `updatedAt` to the current time, touching
nothing else. -/
theorem c7_patch_status_behaviour (store : Store) (body : UpdateOrderRequest)
    (now : Nat) :
    ((ordersPATCH store body now).1.is400 = true ↔
      orderIdFalsy body.orderId = true ∨ statusFalsy body.status = true ∨
      validStatuses.contains (body.status.getD "") = false) ∧
    ((ordersPATCH store body now).1.is404 = true ↔
      orderIdFalsy body.orderId = false ∧ statusFalsy body.status = false ∧
      validStatuses.contains (body.status.getD "") = true ∧
      store.orders.find? (fun o => o.id == body.orderId.getD 0) = none) ∧
    (∀ o0, orderIdFalsy body.orderId = false → statusFalsy body.status = false →
      validStatuses.contains (body.status.getD "") = true →
      store.orders.find? (fun o => o.id == body.orderId.getD 0) = some o0 →
      (ordersPATCH store body now).1 =
        .ok (body.orderId.getD 0) (body.status.getD "") ∧
      (ordersPATCH store body now).2.orders = store.orders.map
        (fun o => if o.id == body.orderId.getD 0
          then { o with status := body.status.getD "", updatedAt := now } else o) ∧
      (ordersPATCH store body now).2.menuItems = store.menuItems ∧
      (ordersPATCH store body now).2.orderItems = store.orderItems) := by
  simp only [ordersPATCH]
  by_cases h1 : (orderIdFalsy body.orderId || statusFalsy body.status) = true
  · rw [if_pos h1]
    refine ⟨?_, ?_, ?_⟩
    · constructor
      · intro _
        rcases Bool.or_eq_true_iff.mp h1 with h | h
        · exact Or.inl h
        · exact Or.inr (Or.inl h)
      · intro _
        rfl
    · constructor
      · intro h
        exact Bool.noConfusion h
      · rintro ⟨ha, hb, -, -⟩
        rw [ha, hb] at h1
        exact Bool.noConfusion h1
    · intro o0 ha hb _ _
      rw [ha, hb] at h1
      exact Bool.noConfusion h1
  · rw [if_neg h1]
    have ha : orderIdFalsy body.orderId = false := by
      cases h : orderIdFalsy body.orderId
      · rfl
      · exact absurd (by rw [h, Bool.true_or]) h1
    have hb : statusFalsy body.status = false := by
      cases h : statusFalsy body.status
      · rfl
      · exact absurd (by rw [h, Bool.or_true]) h1
    by_cases h2 : validStatuses.contains (body.status.getD "") = true
    · rw [if_neg (not_not_intro h2)]
      cases hf : store.orders.find? (fun o => o.id == body.orderId.getD 0) with
      | none =>
        refine ⟨?_, ?_, ?_⟩
        · constructor
          · intro h
            exact Bool.noConfusion h
          · rintro (h | h | h)
            · rw [ha] at h
              exact Bool.noConfusion h
            · rw [hb] at h
              exact Bool.noConfusion h
            · rw [h2] at h
              exact Bool.noConfusion h
        · constructor
          · intro _
            exact ⟨ha, hb, h2, rfl⟩
          · intro _
            rfl
        · intro o0 _ _ _ hf0
          exact Option.noConfusion hf0
      | some o1 =>
        refine ⟨?_, ?_, ?_⟩
        · constructor
          · intro h
            exact Bool.noConfusion h
          · rintro (h | h | h)
            · rw [ha] at h
              exact Bool.noConfusion h
            · rw [hb] at h
              exact Bool.noConfusion h
            · rw [h2] at h
              exact Bool.noConfusion h
        · constructor
          · intro h
            exact Bool.noConfusion h
          · rintro ⟨-, -, -, hfn⟩
            exact Option.noConfusion hfn
        · intro o0 _ _ _ _
          exact ⟨rfl, rfl, rfl, rfl⟩
    · have h2f : validStatuses.contains (body.status.getD "") = false := by
        cases h : validStatuses.contains (body.status.getD "")
        · rfl
        · exact absurd h h2
      rw [if_pos h2]
      refine ⟨?_, ?_, ?_⟩
      · constructor
        · intro _
          exact Or.inr (Or.inr h2f)
        · intro _
          rfl
      · constructor
        · intro h
          exact Bool.noConfusion h
        · rintro ⟨-, -, hc, -⟩
          exact absurd hc h2
      · intro o0 _ _ hc _
        exact absurd hc h2

/-- C7, witness: the backward jump `served → pending` (the "undo serve"
gesture) on the concrete served order 7 succeeds. -/
theorem c7_witness :
    (ordersPATCH sampleStoreWithOrder
      { orderId := some 7, status := some "pending" } 999).1 = .ok 7 "pending" ∧
    (ordersPATCH sampleStoreWithOrder
      { orderId := some 7, status := some "pending" } 999).2.orders =
      sampleStoreWithOrder.orders.map
        (fun o => if o.id == 7
          then { o with status := "pending", updatedAt := 999 } else o) := by
  have h := (c7_patch_status_behaviour sampleStoreWithOrder
    { orderId := some 7, status := some "pending" } 999).2.2 sampleOrderRow
    (by decide) (by decide) (by decide) (by decide)
  exact ⟨h.1, h.2.1⟩

/-! ## Claim C9 -/

/-- C9: a submission with two entries carrying the same `menuItemId` is
rejected with 400 `One or more menu items not found` and persists nothing,
even when every referenced menu item exists, because the handler compares
the number of distinct matched menu rows with the number of submitted
entries. -/
theorem c9_duplicate_ids_rejected
    (store : Store) (body : CreateOrderRequest) (now : Nat) (oid base : Int)
    (items : List OrderItemRequest)
    (hitems : body.items = some items)
    (hdup : ¬ (items.map (fun it => it.menuItemId)).Nodup)
    (hpk : menuPK store)
    (_hres : ∀ it ∈ items, resolves store it) :
    ordersPOST store body now oid base =
      (.badRequest "One or more menu items not found", store) :=
  ordersPOST_dup_reject store body now oid base items hitems hdup hpk

/-- C9, witness: two entries for menu item 2 (which exists) are rejected. -/
theorem c9_witness :
    ordersPOST sampleStore
      { items := some [{ menuItemId := 2, quantity := 1, notes := none },
                       { menuItemId := 2, quantity := 3, notes := none }],
        tableNumber := none } 1000 1 1 =
      (.badRequest "One or more menu items not found", sampleStore) :=
  c9_duplicate_ids_rejected sampleStore
    { items := some [{ menuItemId := 2, quantity := 1, notes := none },
                     { menuItemId := 2, quantity := 3, notes := none }],
      tableNumber := none } 1000 1 1
    [{ menuItemId := 2, quantity := 1, notes := none },
     { menuItemId := 2, quantity := 3, notes := none }]
    rfl (by decide) (by decide) (by decide)

/-! ## Claim C10 -/

/-- C10: the handler never inspects `quantity`.  A submission that is valid
in every other respect (non-empty, distinct resolving ids) is accepted
whatever its quantities — zero or negative included — the order and its line
items are persisted with the submitted quantities, and the stored total is
`Σ price × quantity`, which can therefore be zero or negative. -/
theorem c10_quantity_unvalidated
    (store : Store) (body : CreateOrderRequest) (now : Nat) (oid base : Int)
    (items : List OrderItemRequest)
    (hitems : body.items = some items)
    (hne : items ≠ [])
    (hdup : (items.map (fun it => it.menuItemId)).Nodup)
    (hpk : menuPK store)
    (hres : ∀ it ∈ items, resolves store it) :
    ((ordersPOST store body now oid base).1.isBadRequest = false) ∧
    ((ordersPOST store body now oid base).2.orders = store.orders ++
      [{ id := oid
         orderNumber := generateOrderNumber (todaysOrders store now).length
         tableNumber := strOrNull body.tableNumber
         status := "pending"
         total := orderTotal store items
         createdAt := now
         updatedAt := now }]) ∧
    ((ordersPOST store body now oid base).2.orderItems.map (fun r => r.quantity) =
      store.orderItems.map (fun r => r.quantity) ++ items.map (fun it => it.quantity)) := by
  have h := ordersPOST_success_spec store body now oid base items
    hitems hne hdup hpk hres
  rw [h]
  refine ⟨rfl, rfl, ?_⟩
  simp only [List.map_append, List.map_map]
  congr 1
  exact enumFrom_map_snd items (fun it => it.quantity) 0

/-- C10, witness: a quantity of `-2` for menu item 1 is accepted and the
persisted total is `-2000 < 0`. -/
theorem c10_witness :
    ((ordersPOST sampleStore
      { items := some [{ menuItemId := 1, quantity := -2, notes := none }],
        tableNumber := none } 1000 1 1).1.isBadRequest = false) ∧
    ((ordersPOST sampleStore
      { items := some [{ menuItemId := 1, quantity := -2, notes := none }],
        tableNumber := none } 1000 1 1).2.orders = sampleStore.orders ++
      [{ id := 1
         orderNumber := generateOrderNumber (todaysOrders sampleStore 1000).length
         tableNumber := strOrNull none
         status := "pending"
         total := orderTotal sampleStore
           [{ menuItemId := 1, quantity := -2, notes := none }]
         createdAt := 1000
         updatedAt := 1000 }]) ∧
    orderTotal sampleStore [{ menuItemId := 1, quantity := -2, notes := none }] = -2000 := by
  have h := c10_quantity_unvalidated sampleStore
    { items := some [{ menuItemId := 1, quantity := -2, notes := none }],
      tableNumber := none } 1000 1 1
    [{ menuItemId := 1, quantity := -2, notes := none }]
    rfl (by decide) (by decide) (by decide) (by decide)
  exact ⟨h.1, h.2.1, by decide⟩

end MrChef
